import Mathlib

/-!
Shallow embedding of the OpenPilot flight telemetry module
(flight/modules/Telemetry/telemetry.c): the update-mode scheduler
(updateObject), the dispatch/retry engine (processObjEvent), the transmit
loop queue discipline (telemetryTxTask), and the connection/statistics
state machine (updateTelemetryStats), together with theorems checking the
module's natural-language specification against this embedding.

Modelling conventions: the external UAVObject registry, the UAVTalk
protocol collaborator and the RTOS are collaborators at the boundary;
their observable answers (object metadata, send/request outcomes,
aggregated link statistics, the tick clock) are inputs to the embedded
functions, and the calls the module makes into them (send, request,
write-to-log, subscribe, arm timer) are recorded in the results.
uint32 arithmetic of the C is kept via explicit reduction mod 2^32.
-/

namespace OpenPilot

/-- Firmware constant REQ_TIMEOUT_MS (per-attempt blocking timeout, ms). -/
def REQ_TIMEOUT_MS : Nat := 250

/-- Firmware constant MAX_RETRIES (bound of the retry loop counter). -/
def MAX_RETRIES : Nat := 2

/-- Firmware constant STATS_UPDATE_PERIOD_MS (statistics tick period, ms). -/
def STATS_UPDATE_PERIOD_MS : Nat := 4000

/-- Firmware constant CONNECTION_TIMEOUT_MS (receive-timeout window, ms). -/
def CONNECTION_TIMEOUT_MS : Nat := 8000

/-- Modulus of the C uint32_t counters and tick times. -/
def U32 : Nat := 4294967296

/-- uint32_t addition (wraps mod 2^32), as in the C counter updates. -/
def add32 (a b : Nat) : Nat := (a + b) % U32

/-- uint32_t subtraction (wraps mod 2^32), as in timeNow - timeOfLastObjectUpdate. -/
def sub32 (a b : Nat) : Nat := (a % U32 + (U32 - b % U32)) % U32

/-- The two channel instances: main telemetry link and OPLink radio link. -/
inductive Channel where
  | telem
  | radio
deriving DecidableEq, Repr

/-- The two event queues of a channel (PIOS_TELEM_PRIORITY_QUEUE configured). -/
inductive QueueId where
  | mainQueue
  | priorityQueue
deriving DecidableEq, Repr

/-- UAVObject update modes (UPDATEMODE_PERIODIC and friends). -/
inductive UpdateMode where
  | periodic
  | onChange
  | throttled
  | manual
deriving DecidableEq, Repr

/-- Dispatch event kinds (the EV_* event flags used by telemetry.c;
evNone is EV_NONE, the zeroed event of the statistics sentinel). -/
inductive EventKind where
  | evNone
  | updated
  | updatedManual
  | updatedPeriodic
  | updateReq
  | loggingManual
  | loggingPeriodic
deriving DecidableEq, Repr

/-- Event mask: the bit-or of EV_* flags installed by UAVObjConnectQueue. -/
structure EventMask where
  updated : Bool
  updatedManual : Bool
  updatedPeriodic : Bool
  updateReq : Bool
  loggingManual : Bool
  loggingPeriodic : Bool
deriving DecidableEq, Repr

/-- Empty event mask (eventMask = 0). -/
def EventMask.empty : EventMask :=
  { updated := false, updatedManual := false, updatedPeriodic := false,
    updateReq := false, loggingManual := false, loggingPeriodic := false }

/-- Bit-or of two event masks. -/
def EventMask.or (a b : EventMask) : EventMask :=
  { updated := a.updated || b.updated,
    updatedManual := a.updatedManual || b.updatedManual,
    updatedPeriodic := a.updatedPeriodic || b.updatedPeriodic,
    updateReq := a.updateReq || b.updateReq,
    loggingManual := a.loggingManual || b.loggingManual,
    loggingPeriodic := a.loggingPeriodic || b.loggingPeriodic }

/-- Mask with only the EV_UPDATED flag. -/
def EV_UPDATED : EventMask := { EventMask.empty with updated := true }

/-- Mask with only the EV_UPDATED_MANUAL flag. -/
def EV_UPDATED_MANUAL : EventMask := { EventMask.empty with updatedManual := true }

/-- Mask with only the EV_UPDATED_PERIODIC flag. -/
def EV_UPDATED_PERIODIC : EventMask := { EventMask.empty with updatedPeriodic := true }

/-- Mask with only the EV_UPDATE_REQ flag. -/
def EV_UPDATE_REQ : EventMask := { EventMask.empty with updateReq := true }

/-- Mask with only the EV_LOGGING_MANUAL flag. -/
def EV_LOGGING_MANUAL : EventMask := { EventMask.empty with loggingManual := true }

/-- Mask with only the EV_LOGGING_PERIODIC flag. -/
def EV_LOGGING_PERIODIC : EventMask := { EventMask.empty with loggingPeriodic := true }

/-- Registry-side identity of a data object: its id, priority routing flag
(UAVObjIsPriority) and current live instance count (UAVObjGetNumInstances). -/
structure DataObjInfo where
  id : Nat
  isPriority : Bool
  numInstances : Nat
deriving DecidableEq, Repr

/-- A UAVObject handle: either a data object, or the meta-object describing a
data object (UAVObjIsMetaobject; UAVObjGetLinkedObj of a meta-object is the
data object it describes). -/
inductive UAVObj where
  | dataObj (info : DataObjInfo)
  | metaObj (info : DataObjInfo)
deriving DecidableEq, Repr

/-- UAVObjIsMetaobject. -/
def UAVObj.isMeta : UAVObj → Bool
  | dataObj _ => false
  | metaObj _ => true

/-- UAVObjGetLinkedObj: the data object a meta-object describes. -/
def UAVObj.linkedObj : UAVObj → UAVObj
  | dataObj info => UAVObj.dataObj info
  | metaObj info => UAVObj.dataObj info

/-- UAVObjIsPriority. -/
def UAVObj.isPriority : UAVObj → Bool
  | dataObj info => info.isPriority
  | metaObj info => info.isPriority

/-- UAVObjGetNumInstances. -/
def UAVObj.numInstances : UAVObj → Nat
  | dataObj info => info.numInstances
  | metaObj info => info.numInstances

/-- Instance selector of an event: a specific instance id or the
UAVOBJ_ALL_INSTANCES wildcard. -/
inductive InstId where
  | all
  | inst (i : Nat)
deriving DecidableEq, Repr

/-- UAVObjMetadata as read by telemetry.c: the telemetry/logging update modes,
the two periods, and the telemetry acked flag. -/
structure Metadata where
  telemetryUpdateMode : UpdateMode
  loggingUpdateMode : UpdateMode
  telemetryUpdatePeriod : Nat
  loggingUpdatePeriod : Nat
  telemetryAcked : Bool
deriving DecidableEq, Repr

/-- UAVObjEvent: the queued dispatch event (obj = none models ev->obj == 0,
the statistics sentinel created by TelemetryInitialize with memset 0). -/
structure Event where
  obj : Option UAVObj
  instId : InstId
  event : EventKind
  lowPriority : Bool
deriving DecidableEq, Repr

/-- The statistics sentinel event: TelemetryInitialize zeroes a UAVObjEvent
(obj = 0, instId = 0, event = EV_NONE) and registers it periodically. -/
def statsSentinelEvent : Event :=
  { obj := none, instId := InstId.inst 0, event := EventKind.evNone,
    lowPriority := false }

/-- Target queue of an object's subscriptions and timers: the priority queue
when UAVObjIsPriority, else the main queue (priority queue configured). -/
def targetQueue (obj : UAVObj) : QueueId :=
  if obj.isPriority then QueueId.priorityQueue else QueueId.mainQueue

/-- Scheduling side effects issued by updateObject: arming/updating the
telemetry periodic timer (setUpdatePeriod), the logging periodic timer
(setLoggingPeriod), and installing the subscription (UAVObjConnectQueue). -/
inductive SchedAction where
  | setUpdatePeriod (obj : UAVObj) (q : QueueId) (periodMs : Nat)
  | setLoggingPeriod (obj : UAVObj) (q : QueueId) (periodMs : Nat)
  | connectQueue (obj : UAVObj) (q : QueueId) (mask : EventMask)
deriving DecidableEq, Repr

/-- Telemetry half of updateObject's switch on the telemetry update mode:
returns the telemetry contribution to eventMask, and the argument of the
setUpdatePeriod call when one is made. -/
def telemetryModeSetup (metadata : Metadata) (eventType : EventKind) :
    EventMask × Option Nat :=
  match metadata.telemetryUpdateMode with
  | UpdateMode.periodic =>
      ((EV_UPDATED_PERIODIC.or EV_UPDATED_MANUAL).or EV_UPDATE_REQ,
       some metadata.telemetryUpdatePeriod)
  | UpdateMode.onChange =>
      ((EV_UPDATED.or EV_UPDATED_MANUAL).or EV_UPDATE_REQ, some 0)
  | UpdateMode.throttled =>
      if eventType = EventKind.updatedPeriodic ∨ eventType = EventKind.evNone then
        ((EV_UPDATED.or EV_UPDATED_MANUAL).or EV_UPDATE_REQ,
         if eventType = EventKind.evNone then some metadata.telemetryUpdatePeriod
         else none)
      else
        ((EV_UPDATED_PERIODIC.or EV_UPDATED_MANUAL).or EV_UPDATE_REQ, none)
  | UpdateMode.manual =>
      (EV_UPDATED_MANUAL.or EV_UPDATE_REQ, some 0)

/-- Logging half of updateObject's switch on the logging update mode:
returns the logging contribution to eventMask, and the argument of the
setLoggingPeriod call when one is made. -/
def loggingModeSetup (metadata : Metadata) (eventType : EventKind) :
    EventMask × Option Nat :=
  match metadata.loggingUpdateMode with
  | UpdateMode.periodic =>
      (EV_LOGGING_PERIODIC.or EV_LOGGING_MANUAL,
       some metadata.loggingUpdatePeriod)
  | UpdateMode.onChange =>
      (EV_UPDATED.or EV_LOGGING_MANUAL, some 0)
  | UpdateMode.throttled =>
      if eventType = EventKind.loggingPeriodic ∨ eventType = EventKind.evNone then
        (EV_UPDATED.or EV_LOGGING_MANUAL,
         if eventType = EventKind.evNone then some metadata.loggingUpdatePeriod
         else none)
      else
        (EV_LOGGING_PERIODIC.or EV_LOGGING_MANUAL, none)
  | UpdateMode.manual =>
      (EV_LOGGING_MANUAL, some 0)

/-- Result of updateObject: whether the meta-object defensive PIOS_Assert
fired, and the scheduling actions performed (in program order). -/
structure UpdateObjectResult where
  asserted : Bool
  actions : List SchedAction
deriving DecidableEq, Repr

/-- Embedding of updateObject: the update-mode scheduler. A meta-object
trips PIOS_Assert(false) and returns without any scheduling action;
otherwise the telemetry and logging switches run, their masks are or-ed
and installed as one subscription on the object's target queue. -/
def updateObject (getMetadata : UAVObj → Metadata) (obj : UAVObj)
    (eventType : EventKind) : UpdateObjectResult :=
  if obj.isMeta then
    { asserted := true, actions := [] }
  else
    let metadata := getMetadata obj
    let t := telemetryModeSetup metadata eventType
    let l := loggingModeSetup metadata eventType
    let eventMask := t.1.or l.1
    let tActs := match t.2 with
      | some p => [SchedAction.setUpdatePeriod obj (targetQueue obj) p]
      | none => []
    let lActs := match l.2 with
      | some p => [SchedAction.setLoggingPeriod obj (targetQueue obj) p]
      | none => []
    { asserted := false,
      actions := tActs ++ lActs ++
        [SchedAction.connectQueue obj (targetQueue obj) eventMask] }

/-- Telemetry setUpdatePeriod calls recorded in an updateObject result, in
order, projected to their period arguments. -/
def updatePeriodCalls (r : UpdateObjectResult) : List Nat :=
  r.actions.filterMap (fun a => match a with
    | SchedAction.setUpdatePeriod _ _ p => some p
    | _ => none)

/-- Connection states of the FlightTelemetryStats / GCSTelemetryStats status
field (the two C enums carry the same four values). -/
inductive TelStatus where
  | disconnected
  | handshakeReq
  | handshakeAck
  | connected
deriving DecidableEq, Repr

/-- FlightTelemetryStatsData: the published aggregate status record.
Data-rate fields are C floats computed as byte counts over the statistics
period; they are embedded as rationals (exact for the values involved,
in particular for the zero-reset the spec talks about). -/
structure FlightTelemetryStatsData where
  status : TelStatus
  txDataRate : Rat
  txBytes : Nat
  txFailures : Nat
  txRetries : Nat
  rxDataRate : Rat
  rxBytes : Nat
  rxFailures : Nat
  rxSyncErrors : Nat
  rxCrcErrors : Nat
deriving DecidableEq, Repr

/-- UAVTalkStats after UAVTalkGetStats on the telem connection plus
UAVTalkAddStats on the radio connection: the aggregate of both channels'
raw link counters for one statistics period. -/
structure UAVTalkStats where
  txBytes : Nat
  rxBytes : Nat
  rxObjects : Nat
  rxErrors : Nat
  rxSyncErrors : Nat
  rxCrcErrors : Nat
deriving DecidableEq, Repr

/-- The module's mutable state shared by the dispatch engine and the
statistics tick: the txErrors/txRetries counters, the time of the last
received object, and the FlightTelemetryStats record. -/
structure TelemetryState where
  txErrors : Nat
  txRetries : Nat
  timeOfLastObjectUpdate : Nat
  flightStats : FlightTelemetryStatsData
deriving DecidableEq, Repr

/-- Per-call answers of the external collaborators: the aggregated UAVTalk
statistics, the peer (GCS) advertised status, the current tick time in ms,
the outcome of the i-th UAVTalk send/request attempt on each channel, the
registry metadata of each object, which handle GCSTelemetryStatsHandle()
returns, and the stack value the uninitialized metadata local of
processObjEvent holds on the path that never assigns it. -/
structure ExternalInputs where
  utalkStats : UAVTalkStats
  gcsStatus : TelStatus
  timeNow : Nat
  attemptResults : Channel → Nat → Bool
  getMetadata : UAVObj → Metadata
  gcsStatsObj : UAVObj
  garbageMetadata : Metadata

/-- Value of timeOfLastObjectUpdate after the current statistics tick: it is
refreshed to timeNow whenever the protocol layer reported at least one
received object in the period. -/
def statsTimeOfLastObjectUpdate (inp : ExternalInputs) (st : TelemetryState) :
    Nat :=
  if inp.utalkStats.rxObjects > 0 then inp.timeNow % U32
  else st.timeOfLastObjectUpdate

/-- Connection-timeout test of updateTelemetryStats:
(timeNow - timeOfLastObjectUpdate) > CONNECTION_TIMEOUT_MS in uint32
arithmetic, evaluated after the possible refresh of the timestamp. -/
def statsConnectionTimeout (inp : ExternalInputs) (st : TelemetryState) :
    Bool :=
  decide (CONNECTION_TIMEOUT_MS <
    sub32 (inp.timeNow % U32) (statsTimeOfLastObjectUpdate inp st))

/-- Result of one updateTelemetryStats tick: the new module state (whose
flightStats field is exactly the record published by
FlightTelemetryStatsSet), whether the publish was forced through
FlightTelemetryStatsUpdated, and whether the telemetry alarm was cleared. -/
structure StatsResult where
  state : TelemetryState
  forceUpdate : Bool
  alarmCleared : Bool
deriving DecidableEq, Repr

/-- Embedding of updateTelemetryStats: fold the period's aggregated link
counters into the published record (or zero every published counter while
the state at the start of the tick is not CONNECTED), reset
txErrors/txRetries, refresh the last-object timestamp, step the connection
state machine against the peer status and the receive timeout, clear the
telemetry alarm when CONNECTED, and publish (forced unless steady
CONNECTED). -/
def updateTelemetryStats (inp : ExternalInputs) (st : TelemetryState) :
    StatsResult :=
  let utalkStats := inp.utalkStats
  let fs0 := st.flightStats
  let fs1 :=
    if fs0.status = TelStatus.connected then
      { fs0 with
        txDataRate := (utalkStats.txBytes : Rat) /
          ((STATS_UPDATE_PERIOD_MS : Rat) / 1000),
        txBytes := add32 fs0.txBytes utalkStats.txBytes,
        txFailures := add32 fs0.txFailures st.txErrors,
        txRetries := add32 fs0.txRetries st.txRetries,
        rxDataRate := (utalkStats.rxBytes : Rat) /
          ((STATS_UPDATE_PERIOD_MS : Rat) / 1000),
        rxBytes := add32 fs0.rxBytes utalkStats.rxBytes,
        rxFailures := add32 fs0.rxFailures utalkStats.rxErrors,
        rxSyncErrors := add32 fs0.rxSyncErrors utalkStats.rxSyncErrors,
        rxCrcErrors := add32 fs0.rxCrcErrors utalkStats.rxCrcErrors }
    else
      { fs0 with
        txDataRate := 0, txBytes := 0, txFailures := 0, txRetries := 0,
        rxDataRate := 0, rxBytes := 0, rxFailures := 0, rxSyncErrors := 0,
        rxCrcErrors := 0 }
  let connectionTimeout := statsConnectionTimeout inp st
  let step : TelStatus × Bool :=
    if fs0.status = TelStatus.disconnected then
      if inp.gcsStatus = TelStatus.handshakeReq then
        (TelStatus.handshakeAck, true)
      else (fs0.status, true)
    else if fs0.status = TelStatus.handshakeAck then
      if inp.gcsStatus = TelStatus.connected then (TelStatus.connected, true)
      else if inp.gcsStatus = TelStatus.disconnected then
        (TelStatus.disconnected, true)
      else (fs0.status, true)
    else if fs0.status = TelStatus.connected then
      if inp.gcsStatus ≠ TelStatus.connected ∨ connectionTimeout = true then
        (TelStatus.disconnected, true)
      else (TelStatus.connected, false)
    else (TelStatus.disconnected, true)
  { state :=
      { txErrors := 0, txRetries := 0,
        timeOfLastObjectUpdate := statsTimeOfLastObjectUpdate inp st,
        flightStats := { fs1 with status := step.1 } },
    forceUpdate := step.2,
    alarmCleared := decide (step.1 = TelStatus.connected) }

/-- Embedding of gcsTelemetryStatsUpdated: when either side is not yet
CONNECTED, trigger a statistics/handshake evaluation; returns the new state
and whether updateTelemetryStats ran. -/
def gcsTelemetryStatsUpdated (inp : ExternalInputs) (st : TelemetryState) :
    TelemetryState × Bool :=
  if st.flightStats.status ≠ TelStatus.connected ∨
      inp.gcsStatus ≠ TelStatus.connected then
    ((updateTelemetryStats inp st).state, true)
  else (st, false)

/-- Calls made into the UAVTalk protocol collaborator by the dispatch
engine, with their arguments as passed in the C. -/
inductive ProtoCall where
  | sendObject (obj : UAVObj) (instId : InstId) (acked : Bool) (timeoutMs : Nat)
  | sendObjectRequest (obj : UAVObj) (instId : InstId) (timeoutMs : Nat)
deriving DecidableEq, Repr

/-- Auxiliary recursion of the retry loop, with the remaining loop
allowance as fuel (fuel = MAX_RETRIES - retries on entry). -/
def retryLoopAux (attempts : Nat → Bool) : Nat → Nat → Nat × Bool
  | retries, 0 => (retries, false)
  | retries, fuel + 1 =>
      if attempts retries then (retries, true)
      else retryLoopAux attempts (retries + 1) fuel

/-- Embedding of the retry loop of processObjEvent:
while (retries < MAX_RETRIES && success == -1) attempt, counting every
failed attempt in retries. Returns the final retries counter and whether
some attempt succeeded. The i-th executed attempt has outcome attempts i. -/
def retryLoop (attempts : Nat → Bool) : Nat × Bool :=
  retryLoopAux attempts 0 MAX_RETRIES

/-- Send eligibility of processObjEvent: the condition guarding the
UAVTalkSendObject retry loop. -/
def sendEligible (updateMode : UpdateMode) (k : EventKind) : Bool :=
  decide ((k = EventKind.updated ∧
      (updateMode = UpdateMode.onChange ∨ updateMode = UpdateMode.throttled))
    ∨ k = EventKind.updatedManual
    ∨ (k = EventKind.updatedPeriodic ∧ updateMode ≠ UpdateMode.throttled))

/-- Logging eligibility of processObjEvent: the condition guarding the
write-to-log block. -/
def loggingEligible (loggingMode : UpdateMode) (k : EventKind) : Bool :=
  decide ((k = EventKind.updated ∧
      (loggingMode = UpdateMode.onChange ∨ loggingMode = UpdateMode.throttled))
    ∨ k = EventKind.loggingManual
    ∨ (k = EventKind.loggingPeriodic ∧ loggingMode ≠ UpdateMode.throttled))

/-- UAVObjInstanceWriteToLog calls for one logged event: with the
UAVOBJ_ALL_INSTANCES wildcard, one call per existing instance in ascending
instance-index order; with a specific id, exactly that instance. -/
def logWritesFor (obj : UAVObj) (instId : InstId) : List (UAVObj × Nat) :=
  match instId with
  | InstId.all => (List.range obj.numInstances).map (fun i => (obj, i))
  | InstId.inst i => [(obj, i)]

/-- Result of processObjEvent on one dispatch event: the new module state,
the UAVTalk send/request calls made (in order), the
UAVObjInstanceWriteToLog calls made (in order), the updateObject
invocations made (object and trigger event type, in order), and which of
the two special handlers ran. -/
structure ProcessResult where
  state : TelemetryState
  protocolCalls : List ProtoCall
  logWrites : List (UAVObj × Nat)
  updateObjectCalls : List (UAVObj × EventKind)
  statsRun : Bool
  gcsHandlerRun : Bool
deriving DecidableEq, Repr

/-- Embedding of processObjEvent, the dispatch/retry engine, for the
channel whose transmit task dequeued the event. A zero object reference is
the statistics sentinel; the GCSTelemetryStats handle triggers the
handshake update (on this path the local metadata variable is never
assigned, so the logging decision below reads the uninitialized stack
value, modelled by garbageMetadata); any other object is dispatched: send
with retries when send-eligible, request with retries on EV_UPDATE_REQ,
then the meta/throttled scheduler re-run, then the logging block. -/
def processObjEvent (ch : Channel) (inp : ExternalInputs)
    (st : TelemetryState) (ev : Event) : ProcessResult :=
  match ev.obj with
  | none =>
      { state := (updateTelemetryStats inp st).state,
        protocolCalls := [], logWrites := [], updateObjectCalls := [],
        statsRun := true, gcsHandlerRun := false }
  | some o =>
      if o = inp.gcsStatsObj then
        let g := gcsTelemetryStatsUpdated inp st
        let loggingMode := inp.garbageMetadata.loggingUpdateMode
        { state := g.1,
          protocolCalls := [],
          logWrites :=
            if loggingEligible loggingMode ev.event then logWritesFor o ev.instId
            else [],
          updateObjectCalls :=
            if loggingMode = UpdateMode.throttled then [(o, ev.event)] else [],
          statsRun := g.2, gcsHandlerRun := true }
      else
        let metadata := inp.getMetadata o
        let updateMode := metadata.telemetryUpdateMode
        let rl := retryLoop (inp.attemptResults ch)
        let retries := rl.1
        let success := rl.2
        let attemptsMade := if success then retries + 1 else retries
        let dispatch : List ProtoCall × Nat × Nat :=
          if sendEligible updateMode ev.event then
            (List.replicate attemptsMade
               (ProtoCall.sendObject o ev.instId metadata.telemetryAcked
                 REQ_TIMEOUT_MS),
             add32 st.txRetries retries,
             if success then st.txErrors else add32 st.txErrors 1)
          else if ev.event = EventKind.updateReq then
            (List.replicate attemptsMade
               (ProtoCall.sendObjectRequest o ev.instId REQ_TIMEOUT_MS),
             add32 st.txRetries retries,
             if success then st.txErrors else add32 st.txErrors 1)
          else ([], st.txRetries, st.txErrors)
        let schedCalls1 : List (UAVObj × EventKind) :=
          if o.isMeta then [(o.linkedObj, EventKind.evNone)]
          else if updateMode = UpdateMode.throttled then [(o, ev.event)]
          else []
        let loggingMode := metadata.loggingUpdateMode
        let lWrites :=
          if loggingEligible loggingMode ev.event then logWritesFor o ev.instId
          else []
        let schedCalls2 : List (UAVObj × EventKind) :=
          if loggingMode = UpdateMode.throttled then [(o, ev.event)] else []
        { state := { st with txErrors := dispatch.2.2,
                             txRetries := dispatch.2.1 },
          protocolCalls := dispatch.1,
          logWrites := lWrites,
          updateObjectCalls := schedCalls1 ++ schedCalls2,
          statsRun := false, gcsHandlerRun := false }

/-- Queue snapshot of one channel at the start of a transmit-loop
iteration: the priority queue and the main (normal) queue contents. -/
structure QueueState where
  pq : List Event
  mq : List Event
deriving DecidableEq, Repr

/-- The inner while loop of telemetryTxTask that empties the priority queue
with non-blocking receives: returns the events popped (in order) and the
queue left behind. -/
def drainPriorityQueue : List Event → List Event × List Event
  | [] => ([], [])
  | ev :: rest =>
      let r := drainPriorityQueue rest
      (ev :: r.1, r.2)

/-- Result of one transmit-loop iteration: the events dispatched to
processObjEvent in order, the two queues afterwards, and whether the
iteration ended in the bounded 1-tick blocking wait on the priority
queue. -/
structure TxIterResult where
  dispatched : List Event
  priorityAfter : List Event
  mainAfter : List Event
  blockedTick : Bool
deriving DecidableEq, Repr

/-- Embedding of one iteration of the telemetryTxTask loop body (priority
queue configured): empty the priority queue non-blocking, then one
non-blocking pop of the main queue; when that pop finds the main queue
empty, wait one tick blocking on the priority queue before repeating. -/
def telemetryTxIteration (qs : QueueState) : TxIterResult :=
  let d := drainPriorityQueue qs.pq
  match qs.mq with
  | ev :: rest =>
      { dispatched := d.1 ++ [ev], priorityAfter := d.2, mainAfter := rest,
        blockedTick := false }
  | [] =>
      { dispatched := d.1, priorityAfter := d.2, mainAfter := [],
        blockedTick := true }

/-- Registration of a periodic event on a channel queue
(EventPeriodicQueueCreate). -/
structure PeriodicRegistration where
  channel : Channel
  queue : QueueId
  ev : Event
  periodMs : Nat
deriving DecidableEq, Repr

/-- The periodic statistics-sentinel registrations made by
TelemetryInitialize: the zeroed event is registered every
STATS_UPDATE_PERIOD_MS on the priority queue of the main telemetry channel
AND of the radio channel. -/
def telemetryStatsTickRegistrations : List PeriodicRegistration :=
  [ { channel := Channel.telem, queue := QueueId.priorityQueue,
      ev := statsSentinelEvent, periodMs := STATS_UPDATE_PERIOD_MS },
    { channel := Channel.radio, queue := QueueId.priorityQueue,
      ev := statsSentinelEvent, periodMs := STATS_UPDATE_PERIOD_MS } ]

/-! Concrete sample values shared by witnesses and counterexamples. -/

/-- Sample data object with three live instances. -/
def sampleObj3 : UAVObj :=
  UAVObj.dataObj { id := 1, isPriority := false, numInstances := 3 }

/-- Sample handle playing the role of GCSTelemetryStatsHandle(). -/
def sampleGcsObj : UAVObj :=
  UAVObj.dataObj { id := 99, isPriority := true, numInstances := 1 }

/-- Sample metadata: ON_CHANGE telemetry and logging. -/
def sampleMd : Metadata :=
  { telemetryUpdateMode := UpdateMode.onChange,
    loggingUpdateMode := UpdateMode.onChange,
    telemetryUpdatePeriod := 1000, loggingUpdatePeriod := 1000,
    telemetryAcked := true }

/-- All-zero aggregated UAVTalk statistics. -/
def sampleStats0 : UAVTalkStats :=
  { txBytes := 0, rxBytes := 0, rxObjects := 0, rxErrors := 0,
    rxSyncErrors := 0, rxCrcErrors := 0 }

/-- Published record with all counters zero and the given status. -/
def sampleFlightStats (s : TelStatus) : FlightTelemetryStatsData :=
  { status := s, txDataRate := 0, txBytes := 0, txFailures := 0,
    txRetries := 0, rxDataRate := 0, rxBytes := 0, rxFailures := 0,
    rxSyncErrors := 0, rxCrcErrors := 0 }

/-- Module state with zero counters and the given connection status. -/
def sampleState (s : TelStatus) : TelemetryState :=
  { txErrors := 0, txRetries := 0, timeOfLastObjectUpdate := 0,
    flightStats := sampleFlightStats s }

/-- Baseline external inputs: all attempts succeed, every object reports
sampleMd, time zero, peer disconnected. -/
def sampleInputs : ExternalInputs :=
  { utalkStats := sampleStats0, gcsStatus := TelStatus.disconnected,
    timeNow := 0,
    attemptResults := fun _ _ => true,
    getMetadata := fun _ => sampleMd,
    gcsStatsObj := sampleGcsObj,
    garbageMetadata := sampleMd }

/-- State for the connected-with-history scenario: CONNECTED with 5
cumulative tx bytes already published. -/
def connectedState5 : TelemetryState :=
  { txErrors := 0, txRetries := 0, timeOfLastObjectUpdate := 0,
    flightStats := { (sampleFlightStats TelStatus.connected) with txBytes := 5 } }

/-- Inputs for the receive-timeout scenario: peer still reports connected,
no object received for 20 s, 100 tx bytes in the period. -/
def timeoutInputs : ExternalInputs :=
  { sampleInputs with
    gcsStatus := TelStatus.connected,
    timeNow := 20000,
    utalkStats := { sampleStats0 with txBytes := 100 } }

/-- Metadata with THROTTLED telemetry mode used by witnesses. -/
def throttledMd : Metadata :=
  { telemetryUpdateMode := UpdateMode.throttled,
    loggingUpdateMode := UpdateMode.manual,
    telemetryUpdatePeriod := 500, loggingUpdatePeriod := 0,
    telemetryAcked := false }

/-- Metadata with THROTTLED telemetry AND logging modes. -/
def doubleThrottledMd : Metadata :=
  { telemetryUpdateMode := UpdateMode.throttled,
    loggingUpdateMode := UpdateMode.throttled,
    telemetryUpdatePeriod := 500, loggingUpdatePeriod := 700,
    telemetryAcked := false }

/-- UAVObjConnectQueue masks recorded in an updateObject result. -/
def installedMasks (r : UpdateObjectResult) : List EventMask :=
  r.actions.filterMap (fun a => match a with
    | SchedAction.connectQueue _ _ m => some m
    | _ => none)

/-- Inputs on which the first two send attempts fail and the third would
succeed (the code never makes it). -/
def c1Inputs : ExternalInputs :=
  { sampleInputs with attemptResults := fun _ i => decide (2 ≤ i) }

/-- A content-change UPDATED event on the sample 3-instance object. -/
def c1Event : Event :=
  { obj := some sampleObj3, instId := InstId.inst 0,
    event := EventKind.updated, lowPriority := false }

/-! Theorems for the claims. -/

/-- The drain loop pops every queued priority event in order and leaves the
priority queue empty. -/
theorem drainPriorityQueue_eq (q : List Event) :
    drainPriorityQueue q = (q, []) := by
  induction q with
  | nil => rfl
  | cons e rest ih => simp [drainPriorityQueue, ih]

/-- Claim C6: in every transmit-loop iteration the priority queue is
drained fully (its events dispatched first, in order) before at most one
normal-queue event is dispatched, so a normal-queue event is dispatched
only after the priority queue has been observed empty; the iteration ends
in the bounded 1-tick blocking wait on the priority queue exactly when
both queues are empty after the drain. -/
theorem c6_tx_loop_priority_first (pq mq : List Event) :
    (telemetryTxIteration { pq := pq, mq := mq }).dispatched = pq ++ mq.take 1
    ∧ (telemetryTxIteration { pq := pq, mq := mq }).priorityAfter = []
    ∧ (telemetryTxIteration { pq := pq, mq := mq }).mainAfter = mq.drop 1
    ∧ ((telemetryTxIteration { pq := pq, mq := mq }).blockedTick = true ↔
        mq = []) := by
  cases mq with
  | nil => simp [telemetryTxIteration, drainPriorityQueue_eq]
  | cons e rest => simp [telemetryTxIteration, drainPriorityQueue_eq]

/-- Claim C7, counterexample: TelemetryInitialize registers the statistics
sentinel on the radio channel's queue as well, and the radio channel's
transmit task, dequeuing that sentinel, runs updateTelemetryStats and
advances the connection state (here CONNECTED to DISCONNECTED on a
receive timeout) - so the state machine is not driven by the primary
channel's tick alone. -/
theorem c7_counterexample :
    telemetryStatsTickRegistrations.map PeriodicRegistration.channel =
      [Channel.telem, Channel.radio]
    ∧ (processObjEvent Channel.radio timeoutInputs connectedState5
        statsSentinelEvent).statsRun = true
    ∧ (processObjEvent Channel.radio timeoutInputs connectedState5
        statsSentinelEvent).state.flightStats.status =
      TelStatus.disconnected := by
  refine ⟨by decide, by decide, by decide⟩

/-- Claim C7, amended: the periodic statistics sentinel is registered on
both the primary and the radio channels' queues, and processing it on
either channel's transmit task runs updateTelemetryStats, so both
channels' periodic ticks advance the connection state machine. -/
theorem c7_amended (ch : Channel) (inp : ExternalInputs)
    (st : TelemetryState) :
    (processObjEvent ch inp st statsSentinelEvent).statsRun = true
    ∧ (processObjEvent ch inp st statsSentinelEvent).state =
        (updateTelemetryStats inp st).state
    ∧ ({ channel := Channel.telem, queue := QueueId.priorityQueue,
         ev := statsSentinelEvent, periodMs := STATS_UPDATE_PERIOD_MS } :
         PeriodicRegistration) ∈ telemetryStatsTickRegistrations
    ∧ ({ channel := Channel.radio, queue := QueueId.priorityQueue,
         ev := statsSentinelEvent, periodMs := STATS_UPDATE_PERIOD_MS } :
         PeriodicRegistration) ∈ telemetryStatsTickRegistrations := by
  refine ⟨rfl, rfl, ?_, ?_⟩ <;> simp [telemetryStatsTickRegistrations]

/-- Claim C2: one statistics-tick step of the connection state machine:
DISCONNECTED moves to HANDSHAKE_ACK on a peer handshake request;
HANDSHAKE_ACK follows the peer's connected/disconnected report and is
otherwise unchanged; CONNECTED drops to DISCONNECTED when the peer is not
connected or the receive-timeout window elapsed, and otherwise stays
CONNECTED suppressing the forced publish; the remaining local state
(HANDSHAKE_REQ) is corrected to DISCONNECTED; the publish is forced in
exactly every case other than the steady CONNECTED case. -/
theorem c2_connection_state_step (inp : ExternalInputs)
    (st : TelemetryState) :
    (st.flightStats.status = TelStatus.disconnected →
      inp.gcsStatus = TelStatus.handshakeReq →
      (updateTelemetryStats inp st).state.flightStats.status =
        TelStatus.handshakeAck)
    ∧ (st.flightStats.status = TelStatus.handshakeAck →
      (updateTelemetryStats inp st).state.flightStats.status =
        (if inp.gcsStatus = TelStatus.connected then TelStatus.connected
         else if inp.gcsStatus = TelStatus.disconnected then
           TelStatus.disconnected
         else TelStatus.handshakeAck))
    ∧ (st.flightStats.status = TelStatus.connected →
      (inp.gcsStatus ≠ TelStatus.connected ∨
        statsConnectionTimeout inp st = true) →
      (updateTelemetryStats inp st).state.flightStats.status =
        TelStatus.disconnected)
    ∧ (st.flightStats.status = TelStatus.connected →
      inp.gcsStatus = TelStatus.connected →
      statsConnectionTimeout inp st = false →
      (updateTelemetryStats inp st).state.flightStats.status =
        TelStatus.connected
      ∧ (updateTelemetryStats inp st).forceUpdate = false)
    ∧ (st.flightStats.status = TelStatus.handshakeReq →
      (updateTelemetryStats inp st).state.flightStats.status =
        TelStatus.disconnected)
    ∧ ((updateTelemetryStats inp st).forceUpdate = false ↔
      (st.flightStats.status = TelStatus.connected ∧
        inp.gcsStatus = TelStatus.connected ∧
        statsConnectionTimeout inp st = false)) := by
  cases hs : st.flightStats.status <;>
    cases hg : inp.gcsStatus <;>
      cases ht : statsConnectionTimeout inp st <;>
        simp [updateTelemetryStats, hs, hg, ht]

/-- Claim C2, witness: from DISCONNECTED with the peer requesting a
handshake, a concrete tick moves the state to HANDSHAKE_ACK. -/
theorem c2_connection_state_step_witness :
    (updateTelemetryStats
      { sampleInputs with gcsStatus := TelStatus.handshakeReq }
      (sampleState TelStatus.disconnected)).state.flightStats.status =
      TelStatus.handshakeAck :=
  (c2_connection_state_step
    { sampleInputs with gcsStatus := TelStatus.handshakeReq }
    (sampleState TelStatus.disconnected)).1 rfl rfl

/-- Claim C3, counterexample: on the very tick that transitions CONNECTED
to DISCONNECTED because no object was received within the timeout window,
the published counters are NOT reset to zero: starting CONNECTED with 5
cumulative tx bytes and 100 tx bytes in the period, the published record
carries status DISCONNECTED together with txBytes = 105. -/
theorem c3_counterexample :
    statsConnectionTimeout timeoutInputs connectedState5 = true
    ∧ (updateTelemetryStats timeoutInputs connectedState5).state.flightStats.status =
        TelStatus.disconnected
    ∧ (updateTelemetryStats timeoutInputs connectedState5).state.flightStats.txBytes =
        105 := by
  refine ⟨by decide, by decide, by decide⟩

/-- Claim C3, amended: the counter fold keys on the connection state at
the start of the tick: when that state is not CONNECTED every published
counter is forced to zero, and when it is CONNECTED the counters are
accumulated (so the tick that leaves CONNECTED still publishes the final
period's accumulation; zeros appear only from the following tick on). -/
theorem c3_counters_zero_while_not_connected (inp : ExternalInputs)
    (st : TelemetryState) :
    (st.flightStats.status ≠ TelStatus.connected →
      (updateTelemetryStats inp st).state.flightStats.txDataRate = 0
      ∧ (updateTelemetryStats inp st).state.flightStats.txBytes = 0
      ∧ (updateTelemetryStats inp st).state.flightStats.txFailures = 0
      ∧ (updateTelemetryStats inp st).state.flightStats.txRetries = 0
      ∧ (updateTelemetryStats inp st).state.flightStats.rxDataRate = 0
      ∧ (updateTelemetryStats inp st).state.flightStats.rxBytes = 0
      ∧ (updateTelemetryStats inp st).state.flightStats.rxFailures = 0
      ∧ (updateTelemetryStats inp st).state.flightStats.rxSyncErrors = 0
      ∧ (updateTelemetryStats inp st).state.flightStats.rxCrcErrors = 0)
    ∧ (st.flightStats.status = TelStatus.connected →
      (updateTelemetryStats inp st).state.flightStats.txBytes =
        add32 st.flightStats.txBytes inp.utalkStats.txBytes
      ∧ (updateTelemetryStats inp st).state.flightStats.txFailures =
        add32 st.flightStats.txFailures st.txErrors
      ∧ (updateTelemetryStats inp st).state.flightStats.txRetries =
        add32 st.flightStats.txRetries st.txRetries) := by
  constructor
  · intro h
    simp [updateTelemetryStats, h]
  · intro h
    simp [updateTelemetryStats, h]

/-- Claim C3, amended, witness: a concrete not-CONNECTED tick publishes
all-zero counters, and a concrete CONNECTED tick accumulates. -/
theorem c3_counters_zero_witness :
    (updateTelemetryStats timeoutInputs
      (sampleState TelStatus.handshakeAck)).state.flightStats.txBytes = 0
    ∧ (updateTelemetryStats timeoutInputs connectedState5).state.flightStats.txBytes =
        105 :=
  ⟨((c3_counters_zero_while_not_connected timeoutInputs
      (sampleState TelStatus.handshakeAck)).1 (by decide)).2.1,
   (((c3_counters_zero_while_not_connected timeoutInputs
      connectedState5).2 (by decide)).1).trans (by decide)⟩

/-- The telemetry setUpdatePeriod calls of updateObject on a non-meta
object are exactly the ones decided by the telemetry half of the switch. -/
theorem updatePeriodCalls_updateObject (getMd : UAVObj → Metadata)
    (obj : UAVObj) (et : EventKind) (h : obj.isMeta = false) :
    updatePeriodCalls (updateObject getMd obj et) =
      (telemetryModeSetup (getMd obj) et).2.toList := by
  unfold updateObject updatePeriodCalls
  cases ht : (telemetryModeSetup (getMd obj) et).2 <;>
    cases hl : (loggingModeSetup (getMd obj) et).2 <;>
      simp [h, ht, hl, List.filterMap]

/-- Claim C4: for a non-meta object in THROTTLED telemetry mode the
reconcile function is bistable: on an UPDATED_PERIODIC trigger or the
initial EV_NONE call the telemetry mask is
{UPDATED, UPDATED_MANUAL, UPDATE_REQUESTED} and the periodic timer is
(re)armed at the configured telemetry period only on the initial call; on
any other trigger the telemetry mask is
{UPDATED_PERIODIC, UPDATED_MANUAL, UPDATE_REQUESTED} and no telemetry
timer call is made. -/
theorem c4_throttled_bistable (getMd : UAVObj → Metadata) (obj : UAVObj)
    (et : EventKind) (hm : obj.isMeta = false)
    (ht : (getMd obj).telemetryUpdateMode = UpdateMode.throttled) :
    ((et = EventKind.updatedPeriodic ∨ et = EventKind.evNone) →
      (telemetryModeSetup (getMd obj) et).1 =
        (EV_UPDATED.or EV_UPDATED_MANUAL).or EV_UPDATE_REQ
      ∧ updatePeriodCalls (updateObject getMd obj et) =
        (if et = EventKind.evNone then [(getMd obj).telemetryUpdatePeriod]
         else []))
    ∧ (¬(et = EventKind.updatedPeriodic ∨ et = EventKind.evNone) →
      (telemetryModeSetup (getMd obj) et).1 =
        (EV_UPDATED_PERIODIC.or EV_UPDATED_MANUAL).or EV_UPDATE_REQ
      ∧ updatePeriodCalls (updateObject getMd obj et) = []) := by
  rw [updatePeriodCalls_updateObject getMd obj et hm]
  constructor
  · intro h
    rcases h with h | h <;> subst h <;> simp [telemetryModeSetup, ht]
  · intro h
    simp [telemetryModeSetup, ht, h]

/-- Claim C4, witness: a concrete THROTTLED object: a content-change
UPDATED trigger installs the periodic-only telemetry mask with no timer
call, and the initial EV_NONE call installs the change mask and arms the
timer at the configured 500 ms period. -/
theorem c4_throttled_bistable_witness :
    ((telemetryModeSetup throttledMd EventKind.updated).1 =
        (EV_UPDATED_PERIODIC.or EV_UPDATED_MANUAL).or EV_UPDATE_REQ
      ∧ updatePeriodCalls
          (updateObject (fun _ => throttledMd) sampleObj3 EventKind.updated) = [])
    ∧ ((telemetryModeSetup throttledMd EventKind.evNone).1 =
        (EV_UPDATED.or EV_UPDATED_MANUAL).or EV_UPDATE_REQ
      ∧ updatePeriodCalls
          (updateObject (fun _ => throttledMd) sampleObj3 EventKind.evNone) =
        [500]) :=
  ⟨(c4_throttled_bistable (fun _ => throttledMd) sampleObj3
      EventKind.updated rfl rfl).2 (by decide),
   (c4_throttled_bistable (fun _ => throttledMd) sampleObj3
      EventKind.evNone rfl rfl).1 (Or.inr rfl)⟩

/-- Claim C5: for an ordinary object event, processObjEvent writes to the
log exactly when the kind is UPDATED under logging mode
ON_CHANGE/THROTTLED, or LOGGING_MANUAL, or LOGGING_PERIODIC under a
logging mode other than THROTTLED; with the wildcard instance id it
writes every existing instance once, in ascending instance-index order,
and with a specific instance id it writes exactly that instance. -/
theorem c5_logging_decision (ch : Channel) (inp : ExternalInputs)
    (st : TelemetryState) (ev : Event) (o : UAVObj)
    (hobj : ev.obj = some o) (hg : o ≠ inp.gcsStatsObj) :
    (processObjEvent ch inp st ev).logWrites =
      (if (ev.event = EventKind.updated ∧
            ((inp.getMetadata o).loggingUpdateMode = UpdateMode.onChange ∨
             (inp.getMetadata o).loggingUpdateMode = UpdateMode.throttled))
          ∨ ev.event = EventKind.loggingManual
          ∨ (ev.event = EventKind.loggingPeriodic ∧
             (inp.getMetadata o).loggingUpdateMode ≠ UpdateMode.throttled)
       then (match ev.instId with
             | InstId.all =>
                 (List.range o.numInstances).map (fun i => (o, i))
             | InstId.inst i => [(o, i)])
       else []) := by
  simp only [processObjEvent, hobj]
  rw [if_neg hg]
  simp only [loggingEligible, logWritesFor]
  split
  · rename_i hcond
    rw [if_pos (of_decide_eq_true hcond)]
  · rename_i hcond
    rw [if_neg (by simpa using of_decide_eq_false (Bool.of_not_eq_true hcond))]

/-- Claim C5, witness: an UPDATED event with the wildcard instance id on a
3-instance object under ON_CHANGE logging produces exactly three
write-to-log calls, for instances 0, 1, 2 in that order. -/
theorem c5_logging_decision_witness :
    (processObjEvent Channel.telem sampleInputs
      (sampleState TelStatus.disconnected)
      { obj := some sampleObj3, instId := InstId.all,
        event := EventKind.updated, lowPriority := false }).logWrites =
      [(sampleObj3, 0), (sampleObj3, 1), (sampleObj3, 2)] := by
  have h := c5_logging_decision Channel.telem sampleInputs
    (sampleState TelStatus.disconnected)
    { obj := some sampleObj3, instId := InstId.all,
      event := EventKind.updated, lowPriority := false }
    sampleObj3 rfl (by decide)
  rw [h]
  decide

/-- Claim C8: a meta-object passed to updateObject trips the
PIOS_Assert(false) defensive check and performs no scheduling action; a
non-meta object never trips it; and for every meta-object dispatch event,
processObjEvent re-runs the scheduler on the linked data object (with the
EV_NONE initial trigger) rather than on the meta-object itself - in
particular, as long as the registry does not report THROTTLED logging
metadata for the meta-object (meta-objects have no periodic logging of
their own), every updateObject invocation made for the event targets a
non-meta object. -/
theorem c8_meta_assert_and_linked_rerun (getMd : UAVObj → Metadata)
    (obj : UAVObj) (et : EventKind) (ch : Channel) (inp : ExternalInputs)
    (st : TelemetryState) (ev : Event) (d : DataObjInfo) :
    (obj.isMeta = true →
      (updateObject getMd obj et).asserted = true
      ∧ (updateObject getMd obj et).actions = [])
    ∧ (obj.isMeta = false → (updateObject getMd obj et).asserted = false)
    ∧ (ev.obj = some (UAVObj.metaObj d) →
      UAVObj.metaObj d ≠ inp.gcsStatsObj →
      (processObjEvent ch inp st ev).updateObjectCalls.head? =
        some (UAVObj.dataObj d, EventKind.evNone)
      ∧ ((inp.getMetadata (UAVObj.metaObj d)).loggingUpdateMode ≠
            UpdateMode.throttled →
         ∀ p ∈ (processObjEvent ch inp st ev).updateObjectCalls,
           p.1.isMeta = false)) := by
  refine ⟨?_, ?_, ?_⟩
  · intro h
    simp [updateObject, h]
  · intro h
    simp [updateObject, h]
  · intro hobj hg
    simp only [processObjEvent, hobj]
    rw [if_neg hg]
    constructor
    · simp [UAVObj.isMeta, UAVObj.linkedObj]
    · intro hlm p hp
      simp [UAVObj.isMeta, UAVObj.linkedObj, hlm] at hp
      simp [hp, UAVObj.isMeta]

/-- Claim C8, witness: on the concrete meta-object of the sample object,
updateObject asserts with no actions; on the sample data object it does
not assert; and a meta-object UPDATED event makes processObjEvent re-run
the scheduler exactly on the linked data object with EV_NONE. -/
theorem c8_meta_assert_and_linked_rerun_witness :
    ((updateObject (fun _ => sampleMd)
        (UAVObj.metaObj { id := 1, isPriority := false, numInstances := 3 })
        EventKind.updated).asserted = true
      ∧ (updateObject (fun _ => sampleMd)
        (UAVObj.metaObj { id := 1, isPriority := false, numInstances := 3 })
        EventKind.updated).actions = [])
    ∧ (updateObject (fun _ => sampleMd) sampleObj3
        EventKind.updated).asserted = false
    ∧ (processObjEvent Channel.telem sampleInputs
        (sampleState TelStatus.disconnected)
        { obj := some (UAVObj.metaObj
            { id := 1, isPriority := false, numInstances := 3 }),
          instId := InstId.inst 0, event := EventKind.updated,
          lowPriority := false }).updateObjectCalls.head? =
      some (UAVObj.dataObj { id := 1, isPriority := false, numInstances := 3 },
        EventKind.evNone) :=
  ⟨(c8_meta_assert_and_linked_rerun (fun _ => sampleMd)
      (UAVObj.metaObj { id := 1, isPriority := false, numInstances := 3 })
      EventKind.updated Channel.telem sampleInputs
      (sampleState TelStatus.disconnected) c1Event
      { id := 1, isPriority := false, numInstances := 3 }).1 rfl,
   ⟨(c8_meta_assert_and_linked_rerun (fun _ => sampleMd) sampleObj3
      EventKind.updated Channel.telem sampleInputs
      (sampleState TelStatus.disconnected) c1Event
      { id := 1, isPriority := false, numInstances := 3 }).2.1 rfl,
    ((c8_meta_assert_and_linked_rerun (fun _ => sampleMd) sampleObj3
      EventKind.updated Channel.telem sampleInputs
      (sampleState TelStatus.disconnected)
      { obj := some (UAVObj.metaObj
          { id := 1, isPriority := false, numInstances := 3 }),
        instId := InstId.inst 0, event := EventKind.updated,
        lowPriority := false }
      { id := 1, isPriority := false, numInstances := 3 }).2.2 rfl
      (by decide)).1⟩⟩

/-- Claim C9: with both modes THROTTLED the two bistables share the one
reconcile entry point and the one trigger kind of the call: a
LOGGING_PERIODIC trigger leaves the telemetry half in its suppressed
periodic-only shape while flipping the logging half to its change-enabled
shape, and an UPDATED_PERIODIC trigger does the converse; the one
installed subscription is the union of the two shapes so both sub-state
machines move on the single call. -/
theorem c9_shared_reconcile_cross_trigger (getMd : UAVObj → Metadata)
    (obj : UAVObj) (hm : obj.isMeta = false)
    (ht : (getMd obj).telemetryUpdateMode = UpdateMode.throttled)
    (hl : (getMd obj).loggingUpdateMode = UpdateMode.throttled) :
    (telemetryModeSetup (getMd obj) EventKind.loggingPeriodic).1 =
      (EV_UPDATED_PERIODIC.or EV_UPDATED_MANUAL).or EV_UPDATE_REQ
    ∧ (loggingModeSetup (getMd obj) EventKind.loggingPeriodic).1 =
      EV_UPDATED.or EV_LOGGING_MANUAL
    ∧ (telemetryModeSetup (getMd obj) EventKind.updatedPeriodic).1 =
      (EV_UPDATED.or EV_UPDATED_MANUAL).or EV_UPDATE_REQ
    ∧ (loggingModeSetup (getMd obj) EventKind.updatedPeriodic).1 =
      EV_LOGGING_PERIODIC.or EV_LOGGING_MANUAL
    ∧ installedMasks (updateObject getMd obj EventKind.loggingPeriodic) =
      [((EV_UPDATED_PERIODIC.or EV_UPDATED_MANUAL).or EV_UPDATE_REQ).or
        (EV_UPDATED.or EV_LOGGING_MANUAL)] := by
  refine ⟨?_, ?_, ?_, ?_, ?_⟩ <;>
    simp [updateObject, installedMasks, telemetryModeSetup, loggingModeSetup,
      hm, ht, hl, List.filterMap]

/-- Claim C9, witness: the cross-trigger on concrete double-THROTTLED
metadata. -/
theorem c9_shared_reconcile_cross_trigger_witness :
    (telemetryModeSetup doubleThrottledMd EventKind.loggingPeriodic).1 =
      (EV_UPDATED_PERIODIC.or EV_UPDATED_MANUAL).or EV_UPDATE_REQ
    ∧ (loggingModeSetup doubleThrottledMd EventKind.loggingPeriodic).1 =
      EV_UPDATED.or EV_LOGGING_MANUAL :=
  ⟨(c9_shared_reconcile_cross_trigger (fun _ => doubleThrottledMd)
      sampleObj3 rfl rfl rfl).1,
   (c9_shared_reconcile_cross_trigger (fun _ => doubleThrottledMd)
      sampleObj3 rfl rfl rfl).2.1⟩

/-- Claim C10: an ordinary-object dispatch event whose kind triggers
neither a send (not UPDATED under ON_CHANGE/THROTTLED, not
UPDATED_MANUAL, not UPDATED_PERIODIC under a mode other than THROTTLED)
nor a request (not UPDATE_REQUESTED) makes no protocol send/request call
and leaves txErrors and txRetries unchanged. -/
theorem c10_no_send_frame (ch : Channel) (inp : ExternalInputs)
    (st : TelemetryState) (ev : Event) (o : UAVObj)
    (hobj : ev.obj = some o) (hg : o ≠ inp.gcsStatsObj)
    (h1 : ¬(ev.event = EventKind.updated ∧
      ((inp.getMetadata o).telemetryUpdateMode = UpdateMode.onChange ∨
       (inp.getMetadata o).telemetryUpdateMode = UpdateMode.throttled)))
    (h2 : ev.event ≠ EventKind.updatedManual)
    (h3 : ¬(ev.event = EventKind.updatedPeriodic ∧
      (inp.getMetadata o).telemetryUpdateMode ≠ UpdateMode.throttled))
    (h4 : ev.event ≠ EventKind.updateReq) :
    (processObjEvent ch inp st ev).protocolCalls = []
    ∧ (processObjEvent ch inp st ev).state.txErrors = st.txErrors
    ∧ (processObjEvent ch inp st ev).state.txRetries = st.txRetries := by
  have hse : sendEligible (inp.getMetadata o).telemetryUpdateMode ev.event =
      false := by
    simp only [sendEligible, decide_eq_false_iff_not]
    tauto
  simp [processObjEvent, hobj, hg, hse, h4]

/-- Claim C10, witness: a LOGGING_MANUAL event on the sample object, and
an UPDATED_PERIODIC event on a THROTTLED-mode object, issue no protocol
call and leave the counters untouched. -/
theorem c10_no_send_frame_witness :
    ((processObjEvent Channel.telem sampleInputs
        (sampleState TelStatus.disconnected)
        { obj := some sampleObj3, instId := InstId.inst 0,
          event := EventKind.loggingManual,
          lowPriority := false }).protocolCalls = []
      ∧ (processObjEvent Channel.telem sampleInputs
        (sampleState TelStatus.disconnected)
        { obj := some sampleObj3, instId := InstId.inst 0,
          event := EventKind.loggingManual,
          lowPriority := false }).state.txErrors =
        (sampleState TelStatus.disconnected).txErrors)
    ∧ (processObjEvent Channel.telem
        { sampleInputs with getMetadata := fun _ => throttledMd }
        (sampleState TelStatus.disconnected)
        { obj := some sampleObj3, instId := InstId.inst 0,
          event := EventKind.updatedPeriodic,
          lowPriority := false }).protocolCalls = [] :=
  ⟨⟨(c10_no_send_frame Channel.telem sampleInputs
      (sampleState TelStatus.disconnected)
      { obj := some sampleObj3, instId := InstId.inst 0,
        event := EventKind.loggingManual, lowPriority := false }
      sampleObj3 rfl (by decide) (by decide) (by decide) (by decide)
      (by decide)).1,
    (c10_no_send_frame Channel.telem sampleInputs
      (sampleState TelStatus.disconnected)
      { obj := some sampleObj3, instId := InstId.inst 0,
        event := EventKind.loggingManual, lowPriority := false }
      sampleObj3 rfl (by decide) (by decide) (by decide) (by decide)
      (by decide)).2.1⟩,
   (c10_no_send_frame Channel.telem
      { sampleInputs with getMetadata := fun _ => throttledMd }
      (sampleState TelStatus.disconnected)
      { obj := some sampleObj3, instId := InstId.inst 0,
        event := EventKind.updatedPeriodic, lowPriority := false }
      sampleObj3 rfl (by decide) (by decide) (by decide) (by decide)
      (by decide)).1⟩

/-- An attempt sequence whose first try succeeds stops the retry loop at
once with zero retries. -/
theorem retryLoop_first_success (a : Nat → Bool) (h : a 0 = true) :
    retryLoop a = (0, true) := by
  simp [retryLoop, MAX_RETRIES, retryLoopAux, h]

/-- One failed attempt followed by a success stops the retry loop with one
retry counted. -/
theorem retryLoop_second_success (a : Nat → Bool) (h0 : a 0 = false)
    (h1 : a 1 = true) : retryLoop a = (1, true) := by
  simp [retryLoop, MAX_RETRIES, retryLoopAux, h0, h1]

/-- Two failed attempts exhaust the retry loop: the loop guard
retries < MAX_RETRIES stops any further attempt. -/
theorem retryLoop_exhausted (a : Nat → Bool) (h0 : a 0 = false)
    (h1 : a 1 = false) : retryLoop a = (2, false) := by
  simp [retryLoop, MAX_RETRIES, retryLoopAux, h0, h1]

/-- Claim C1, counterexample: with the first two attempts failing and the
third attempt set to succeed, a send-eligible dispatch makes only 2
protocol calls (the claimed 3rd total attempt never happens, because the
loop guard retries < MAX_RETRIES = 2 counts every failed attempt), and
txErrors increments by 1 even though the claim's N = 2 failures followed
by a success demands an increment of 0. -/
theorem c1_counterexample :
    c1Inputs.attemptResults Channel.telem 0 = false
    ∧ c1Inputs.attemptResults Channel.telem 1 = false
    ∧ c1Inputs.attemptResults Channel.telem 2 = true
    ∧ (processObjEvent Channel.telem c1Inputs
        (sampleState TelStatus.disconnected) c1Event).state.txErrors = 1
    ∧ (processObjEvent Channel.telem c1Inputs
        (sampleState TelStatus.disconnected) c1Event).state.txRetries = 2
    ∧ (processObjEvent Channel.telem c1Inputs
        (sampleState TelStatus.disconnected)
        c1Event).protocolCalls.length = 2 := by
  refine ⟨by decide, by decide, by decide, by decide, by decide, by decide⟩

/-- Claim C1, amended: for every dispatch of a send-eligible or
update-request event the protocol action is attempted up to 2 total
attempts (the loop guard retries < MAX_RETRIES = 2 counts every failed
attempt, including the first, as a retry): a first-attempt success leaves
txErrors and txRetries unchanged after 1 call; one failure followed by a
success adds 0 to txErrors and 1 to txRetries after 2 calls; two
consecutive failures exhaust the ceiling, adding 1 to txErrors and 2 to
txRetries after 2 calls. -/
theorem c1_retry_accounting (ch : Channel) (inp : ExternalInputs)
    (st : TelemetryState) (ev : Event) (o : UAVObj)
    (hobj : ev.obj = some o) (hg : o ≠ inp.gcsStatsObj)
    (helig : sendEligible (inp.getMetadata o).telemetryUpdateMode ev.event =
        true ∨ ev.event = EventKind.updateReq)
    (herr : st.txErrors + 1 < U32) (hret : st.txRetries + 2 < U32) :
    (inp.attemptResults ch 0 = true →
      (processObjEvent ch inp st ev).state.txErrors = st.txErrors
      ∧ (processObjEvent ch inp st ev).state.txRetries = st.txRetries
      ∧ (processObjEvent ch inp st ev).protocolCalls.length = 1)
    ∧ (inp.attemptResults ch 0 = false → inp.attemptResults ch 1 = true →
      (processObjEvent ch inp st ev).state.txErrors = st.txErrors
      ∧ (processObjEvent ch inp st ev).state.txRetries = st.txRetries + 1
      ∧ (processObjEvent ch inp st ev).protocolCalls.length = 2)
    ∧ (inp.attemptResults ch 0 = false → inp.attemptResults ch 1 = false →
      (processObjEvent ch inp st ev).state.txErrors = st.txErrors + 1
      ∧ (processObjEvent ch inp st ev).state.txRetries = st.txRetries + 2
      ∧ (processObjEvent ch inp st ev).protocolCalls.length = 2) := by
  simp only [U32] at herr hret
  by_cases hse : sendEligible (inp.getMetadata o).telemetryUpdateMode
      ev.event = true
  · refine ⟨?_, ?_, ?_⟩
    · intro h0
      simp [processObjEvent, hobj, hg, hse,
        retryLoop_first_success (inp.attemptResults ch) h0, add32, U32]
      all_goals omega
    · intro h0 h1
      simp [processObjEvent, hobj, hg, hse,
        retryLoop_second_success (inp.attemptResults ch) h0 h1, add32, U32]
      all_goals omega
    · intro h0 h1
      simp [processObjEvent, hobj, hg, hse,
        retryLoop_exhausted (inp.attemptResults ch) h0 h1, add32, U32]
      all_goals omega
  · have hreq : ev.event = EventKind.updateReq := by tauto
    rw [hreq] at hse
    refine ⟨?_, ?_, ?_⟩
    · intro h0
      simp [processObjEvent, hobj, hg, hse, hreq,
        retryLoop_first_success (inp.attemptResults ch) h0, add32, U32]
      all_goals omega
    · intro h0 h1
      simp [processObjEvent, hobj, hg, hse, hreq,
        retryLoop_second_success (inp.attemptResults ch) h0 h1, add32, U32]
      all_goals omega
    · intro h0 h1
      simp [processObjEvent, hobj, hg, hse, hreq,
        retryLoop_exhausted (inp.attemptResults ch) h0 h1, add32, U32]
      all_goals omega

/-- Claim C1, amended, witness: a concrete first-attempt success leaves
both counters at 0 with a single protocol call. -/
theorem c1_retry_accounting_witness :
    (processObjEvent Channel.telem sampleInputs
      (sampleState TelStatus.disconnected) c1Event).state.txErrors = 0
    ∧ (processObjEvent Channel.telem sampleInputs
      (sampleState TelStatus.disconnected) c1Event).state.txRetries = 0
    ∧ (processObjEvent Channel.telem sampleInputs
      (sampleState TelStatus.disconnected)
      c1Event).protocolCalls.length = 1 :=
  (c1_retry_accounting Channel.telem sampleInputs
    (sampleState TelStatus.disconnected) c1Event sampleObj3 rfl
    (by decide) (Or.inl (by decide)) (by decide) (by decide)).1 rfl

end OpenPilot
